import Mathlib

/-!
Verification of the i2csens driver (src/i2csensdrv.c) against its
natural-language specification.

The driver is a small Linux I2C sensor driver.  We shallowly embed the
device-facing logic: the register addresses and constants, the regmap
configuration (from the source), the Register Map read/write contract
(modelled from the spec, since the kernel regmap core is an external
collaborator whose sources are not part of this repository), the sysfs
attribute handlers `enable_show`, `enable_store`, `data_show`, and the
probe function `i2csens_probe` (all translated from the source).

Machine integers: register values are bytes (`% 256`); the C locals are
`unsigned int`, modelled as naturals reduced `% 2 ^ 32` where overflow
could matter.  C locals that are read from `regmap_read` without checking
the returned error code are indeterminate when the read fails; such
functions take an extra `junk` argument standing for the leftover stack
value of the uninitialized local.
-/

set_option autoImplicit false

namespace I2csens

/-- Register addresses, from the source defines. -/
def I2CSENS_REG_ID : Nat := 0

/-- CTRL register address, from the source defines. -/
def I2CSENS_REG_CTRL : Nat := 1

/-- DATA register address, from the source defines. -/
def I2CSENS_REG_DATA : Nat := 2

/-- Bit mask of the enable bit in CTRL, from the source defines. -/
def CTRL_EN_MASK : Nat := 0x1

/-- Expected identity byte, from the source defines. -/
def I2CSENS_ID : Nat := 0x5A

/-- Modulus of the 32-bit `unsigned int` C locals. -/
def UINT_MOD : Nat := 2 ^ 32

/-- Bus transport state: the device's byte-wide register file together with
fault-injection flags saying whether the bus transaction at a given address
fails.  The register file is total; only addresses inside the configured
address space are ever reached through the Register Map. -/
structure Bus where
  regs : Nat → Nat
  readFault : Nat → Bool
  writeFault : Nat → Bool

/-- Register-level errors of the Register Map contract. -/
inductive RegErr where
  | OutOfRange
  | NotWritable
  | BusError
deriving DecidableEq

/-- A bus transaction record, used for frame reasoning about which register
transactions an operation issues. -/
inductive Txn where
  | read (addr : Nat)
  | write (addr : Nat) (val : Nat)
deriving DecidableEq

/-- Register map configuration, mirroring `struct regmap_config` fields the
driver sets. -/
structure RegmapConfig where
  reg_bits : Nat
  val_bits : Nat
  max_register : Nat
  writeable_reg : Nat → Bool

/-- Writability predicate from the source: only the CTRL register is
writeable. -/
def i2csens_regmap_is_writeable (reg : Nat) : Bool :=
  reg == I2CSENS_REG_CTRL

/-- The regmap configuration from the source: 8-bit addresses and values,
highest valid register DATA, writability decided by
`i2csens_regmap_is_writeable`, no cache. -/
def i2csens_regmap_config : RegmapConfig :=
  { reg_bits := 8
    val_bits := 8
    max_register := I2CSENS_REG_DATA
    writeable_reg := i2csens_regmap_is_writeable }

/-- Modelled from the spec: the Register Map `read` operation (the kernel
regmap core is not among this repository's sources; only its configuration
is).  The address is bounds-checked against the address space; in range, a
fresh bus transaction is issued (cache policy is none) which either fails
with a bus error or yields the register's byte.  Returns the result
together with the list of bus transactions issued. -/
def regmap_read (cfg : RegmapConfig) (bus : Bus) (addr : Nat) :
    Except RegErr Nat × List Txn :=
  if addr > cfg.max_register then
    (Except.error RegErr.OutOfRange, [])
  else if bus.readFault addr then
    (Except.error RegErr.BusError, [Txn.read addr])
  else
    (Except.ok (bus.regs addr % 256), [Txn.read addr])

/-- Modelled from the spec: the Register Map `write` operation (the kernel
regmap core is not among this repository's sources; only its configuration
is).  The address is bounds-checked, then checked against the writability
predicate, and only then is a bus transaction issued, which either fails
with a bus error or stores the value's low byte.  Returns the result, the
bus state afterwards, and the list of bus transactions issued. -/
def regmap_write (cfg : RegmapConfig) (bus : Bus) (addr : Nat) (v : Nat) :
    Except RegErr Unit × Bus × List Txn :=
  if addr > cfg.max_register then
    (Except.error RegErr.OutOfRange, bus, [])
  else if cfg.writeable_reg addr = false then
    (Except.error RegErr.NotWritable, bus, [])
  else if bus.writeFault addr then
    (Except.error RegErr.BusError, bus, [Txn.write addr v])
  else
    (Except.ok (),
     { regs := fun a => if a = addr then v % 256 else bus.regs a
       readFault := bus.readFault
       writeFault := bus.writeFault },
     [Txn.write addr v])

/-- Translation of `enable_show` from the source.  The C code stores the
error code of `regmap_read` into `err` but never checks it, masks the local
with `CTRL_EN_MASK`, and formats `!!enable` with sprintf; it has no failure
path.  `junk` models the indeterminate value of the uninitialized local
`enable` when the read fails and stores nothing.  The result is the integer
that sprintf formats into the buffer. -/
def enable_show (bus : Bus) (junk : Nat) : Nat :=
  let enable :=
    match (regmap_read i2csens_regmap_config bus I2CSENS_REG_CTRL).1 with
    | Except.ok v => v
    | Except.error _ => junk % UINT_MOD
  let enable := enable &&& CTRL_EN_MASK
  if enable ≠ 0 then 1 else 0

/-- Translation of `enable_store` from the source.  The C code reads CTRL
into `ctrl` ignoring the returned error code (`junk` models the
indeterminate local on a failed read), parses the input to an integer `v`
with sscanf (result unchecked), clears bit 0 of `ctrl` if `v` is zero
(`ctrl &= ~CTRL_EN_MASK` on a 32-bit unsigned local) or sets it otherwise,
then writes CTRL; the write's error is returned on failure, success
otherwise.  Returns the result together with the bus state afterwards. -/
def enable_store (bus : Bus) (v : Int) (junk : Nat) :
    Except RegErr Unit × Bus :=
  let ctrl :=
    match (regmap_read i2csens_regmap_config bus I2CSENS_REG_CTRL).1 with
    | Except.ok c => c
    | Except.error _ => junk % UINT_MOD
  let ctrl :=
    if v = 0 then ctrl &&& (UINT_MOD - 1 - CTRL_EN_MASK)
    else ctrl ||| CTRL_EN_MASK
  match regmap_write i2csens_regmap_config bus I2CSENS_REG_CTRL ctrl with
  | (Except.error e, bus2, _) => (Except.error e, bus2)
  | (Except.ok _, bus2, _) => (Except.ok (), bus2)

/-- Translation of `data_show` from the source.  The C code reads DATA into
the 32-bit unsigned local `temperature`, ignoring the returned error code
(`junk` models the indeterminate local on a failed read), multiplies by
1000 and shifts right by one in 32-bit unsigned arithmetic, and formats the
result with sprintf; it has no failure path.  The result is the integer
value that sprintf formats into the buffer. -/
def data_show (bus : Bus) (junk : Nat) : Nat :=
  let temperature :=
    match (regmap_read i2csens_regmap_config bus I2CSENS_REG_DATA).1 with
    | Except.ok v => v
    | Except.error _ => junk % UINT_MOD
  let temperature := temperature * 1000 % UINT_MOD
  let temperature := temperature >>> 1
  temperature

/-- Binding errors of the probe path: a propagated bus error from the ID
read, or the -ENODEV rejection on an identity mismatch. -/
inductive BindError where
  | BusError
  | UnexpectedIdentity
deriving DecidableEq

/-- Outcome of a probe: the returned status, whether the sysfs attribute
group (the Property Interface) ended up registered, the register
transactions issued, and the bus state afterwards. -/
structure ProbeOutcome where
  result : Except BindError Unit
  sysfsRegistered : Bool
  trace : List Txn
  busAfter : Bus

/-- Translation of `i2csens_probe` from the source.  Allocation and regmap
construction perform no register I/O and cannot fail in this model.  The
probe reads the ID register: a failed read propagates the error
(`status < 0` is returned); a successful read of a value other than
`I2CSENS_ID` returns -ENODEV; otherwise `sysfs_create_group` is attempted
(`sysfsOk` says whether the host can register the attribute group), its
failure is only logged, and the probe returns 0.  Reads do not mutate the
device, so the bus state is returned unchanged. -/
def i2csens_probe (bus : Bus) (sysfsOk : Bool) : ProbeOutcome :=
  match regmap_read i2csens_regmap_config bus I2CSENS_REG_ID with
  | (Except.error _, t) =>
      { result := Except.error BindError.BusError
        sysfsRegistered := false
        trace := t
        busAfter := bus }
  | (Except.ok regval, t) =>
      if regval ≠ I2CSENS_ID then
        { result := Except.error BindError.UnexpectedIdentity
          sysfsRegistered := false
          trace := t
          busAfter := bus }
      else
        { result := Except.ok ()
          sysfsRegistered := sysfsOk
          trace := t
          busAfter := bus }

/-- A fault-free bus whose ID register holds the expected identity byte and
whose other registers hold zero. -/
def okBus : Bus :=
  { regs := fun a => if a = I2CSENS_REG_ID then I2CSENS_ID else 0
    readFault := fun _ => false
    writeFault := fun _ => false }

/-- A fault-free bus whose registers all hold zero (so its ID is wrong and
its CTRL starts at 0x00). -/
def zeroBus : Bus :=
  { regs := fun _ => 0
    readFault := fun _ => false
    writeFault := fun _ => false }

/-- A bus on which every transaction fails. -/
def faultBus : Bus :=
  { regs := fun _ => 0
    readFault := fun _ => true
    writeFault := fun _ => true }

/-- A bus on which reads fail but writes succeed; all registers hold
zero. -/
def readFaultBus : Bus :=
  { regs := fun _ => 0
    readFault := fun _ => true
    writeFault := fun _ => false }

/-- A fault-free bus whose DATA register holds 100. -/
def dataBus100 : Bus :=
  { regs := fun a => if a = I2CSENS_REG_DATA then 100 else 0
    readFault := fun _ => false
    writeFault := fun _ => false }

/-- A fault-free bus whose DATA register holds 255. -/
def dataBus255 : Bus :=
  { regs := fun a => if a = I2CSENS_REG_DATA then 255 else 0
    readFault := fun _ => false
    writeFault := fun _ => false }

/-- A fault-free bus whose CTRL register holds 0x80, for exercising the
reserved-bit behaviour. -/
def ctrlBus80 : Bus :=
  { regs := fun a => if a = I2CSENS_REG_CTRL then 0x80 else 0
    readFault := fun _ => false
    writeFault := fun _ => false }

end I2csens

namespace I2csens

set_option maxRecDepth 8192

/-! Helper lemmas: reductions of the embedded operations on the success and
failure paths, shared by the claim theorems below. -/

/-- A read of an in-range register on a fault-free address yields the
register's byte. -/
theorem regmap_read_ok (bus : Bus) (addr : Nat) (h1 : addr ≤ 2)
    (h2 : bus.readFault addr = false) :
    regmap_read i2csens_regmap_config bus addr =
      (Except.ok (bus.regs addr % 256), [Txn.read addr]) := by
  have h3 : ¬ addr > i2csens_regmap_config.max_register := by
    simpa [i2csens_regmap_config, I2CSENS_REG_DATA] using Nat.not_lt.mpr h1
  simp [regmap_read, h3, h2]

/-- A read of an in-range register whose bus transaction fails yields a bus
error. -/
theorem regmap_read_fault (bus : Bus) (addr : Nat) (h1 : addr ≤ 2)
    (h2 : bus.readFault addr = true) :
    regmap_read i2csens_regmap_config bus addr =
      (Except.error RegErr.BusError, [Txn.read addr]) := by
  have h3 : ¬ addr > i2csens_regmap_config.max_register := by
    simpa [i2csens_regmap_config, I2CSENS_REG_DATA] using Nat.not_lt.mpr h1
  simp [regmap_read, h3, h2]

/-- A write to CTRL on a fault-free bus succeeds and stores the low byte. -/
theorem regmap_write_ctrl_ok (bus : Bus) (v : Nat)
    (h : bus.writeFault I2CSENS_REG_CTRL = false) :
    regmap_write i2csens_regmap_config bus I2CSENS_REG_CTRL v =
      (Except.ok (),
       { regs := fun a => if a = I2CSENS_REG_CTRL then v % 256 else bus.regs a
         readFault := bus.readFault
         writeFault := bus.writeFault },
       [Txn.write I2CSENS_REG_CTRL v]) := by
  have h1 : bus.writeFault 1 = false := h
  simp [regmap_write, i2csens_regmap_config, i2csens_regmap_is_writeable,
    I2CSENS_REG_CTRL, I2CSENS_REG_DATA, h1]

/-- Bit-level facts about the CTRL update arithmetic of `enable_store`, for
every possible byte read back from CTRL. -/
theorem ctrl_update_bits :
    ∀ c < 256,
      (c &&& (UINT_MOD - 1 - CTRL_EN_MASK)) % 256 / 2 = c / 2 ∧
      (c &&& (UINT_MOD - 1 - CTRL_EN_MASK)) % 256 % 2 = 0 ∧
      (c ||| CTRL_EN_MASK) % 256 / 2 = c / 2 ∧
      (c ||| CTRL_EN_MASK) % 256 % 2 = 1 := by decide

/-- Arithmetic facts about the DATA conversion, for every possible byte. -/
theorem data_conv_bits :
    ∀ s < 256,
      (s * 1000 % UINT_MOD) >>> 1 = s * 500 ∧
      (s * 1000 % UINT_MOD) >>> 1 = (s * 1000) >>> 1 ∧
      s * 1000 < UINT_MOD := by decide

/-- Reduction of `enable_store` when both the CTRL read and the CTRL write
succeed. -/
theorem enable_store_ok (bus : Bus) (v : Int) (junk : Nat)
    (hr : bus.readFault I2CSENS_REG_CTRL = false)
    (hw : bus.writeFault I2CSENS_REG_CTRL = false) :
    enable_store bus v junk =
      (Except.ok (),
       { regs := fun a =>
           if a = I2CSENS_REG_CTRL then
             (if v = 0 then
                (bus.regs I2CSENS_REG_CTRL % 256) &&& (UINT_MOD - 1 - CTRL_EN_MASK)
              else
                (bus.regs I2CSENS_REG_CTRL % 256) ||| CTRL_EN_MASK) % 256
           else bus.regs a
         readFault := bus.readFault
         writeFault := bus.writeFault }) := by
  rw [enable_store, regmap_read_ok bus I2CSENS_REG_CTRL (by decide) hr,
    regmap_write_ctrl_ok bus _ hw]

end I2csens

namespace I2csens

set_option maxRecDepth 8192

/-- C1: every binding attempt issues a read of the ID register; if that bus
transaction fails the bind fails with the propagated bus error, and if the
read succeeds but returns any value other than 0x5A the bind fails with the
unexpected-identity error and no sysfs attribute group (Property Interface)
is registered. -/
theorem C1_bind_identity_check (bus : Bus) (sysfsOk : Bool) :
    (i2csens_probe bus sysfsOk).trace = [Txn.read I2CSENS_REG_ID] ∧
    (bus.readFault I2CSENS_REG_ID = true →
      (i2csens_probe bus sysfsOk).result = Except.error BindError.BusError ∧
      (i2csens_probe bus sysfsOk).sysfsRegistered = false) ∧
    (bus.readFault I2CSENS_REG_ID = false →
      bus.regs I2CSENS_REG_ID % 256 ≠ I2CSENS_ID →
      (i2csens_probe bus sysfsOk).result = Except.error BindError.UnexpectedIdentity ∧
      (i2csens_probe bus sysfsOk).sysfsRegistered = false) := by
  by_cases h : bus.readFault I2CSENS_REG_ID = true
  · have e := regmap_read_fault bus I2CSENS_REG_ID (by decide) h
    simp [i2csens_probe, e, h]
  · have h' : bus.readFault I2CSENS_REG_ID = false := by simpa using h
    have e := regmap_read_ok bus I2CSENS_REG_ID (by decide) h'
    by_cases hid : bus.regs I2CSENS_REG_ID % 256 = I2CSENS_ID
    · simp [i2csens_probe, e, h', hid]
    · simp [i2csens_probe, e, h', hid]

/-- C1 witness: a fault-free device whose ID register holds 0 is rejected
with the unexpected-identity error and no attribute group registered. -/
theorem C1_bind_identity_check_witness :
    zeroBus.readFault I2CSENS_REG_ID = false ∧
    zeroBus.regs I2CSENS_REG_ID % 256 ≠ I2CSENS_ID ∧
    ((i2csens_probe zeroBus true).result = Except.error BindError.UnexpectedIdentity ∧
     (i2csens_probe zeroBus true).sysfsRegistered = false) :=
  ⟨rfl, by decide, (C1_bind_identity_check zeroBus true).2.2 rfl (by decide)⟩

/-- C2: a successful data get of an 8-bit sample s returns (s * 1000) >>> 1,
which equals s * 500, and s * 1000 does not overflow 32 bits. -/
theorem C2_data_conversion (bus : Bus) (junk : Nat)
    (h : bus.readFault I2CSENS_REG_DATA = false) :
    data_show bus junk = (bus.regs I2CSENS_REG_DATA % 256) * 500 ∧
    data_show bus junk = (bus.regs I2CSENS_REG_DATA % 256 * 1000) >>> 1 ∧
    bus.regs I2CSENS_REG_DATA % 256 * 1000 < UINT_MOD := by
  have hs : bus.regs I2CSENS_REG_DATA % 256 < 256 := Nat.mod_lt _ (by decide)
  obtain ⟨k1, k2, k3⟩ := data_conv_bits _ hs
  have e : data_show bus junk =
      (bus.regs I2CSENS_REG_DATA % 256 * 1000 % UINT_MOD) >>> 1 := by
    simp [data_show, regmap_read_ok bus I2CSENS_REG_DATA (by decide) h]
  exact ⟨e.trans k1, e.trans k2, k3⟩

/-- C2 witness: raw sample 100 yields 50000; raw sample 255 yields
127500. -/
theorem C2_data_conversion_witness :
    dataBus100.readFault I2CSENS_REG_DATA = false ∧
    data_show dataBus100 0 = 50000 ∧
    data_show dataBus255 0 = 127500 := by
  refine ⟨rfl, ?_, by decide⟩
  rw [(C2_data_conversion dataBus100 0 rfl).1]
  decide

/-- C3: with the CTRL read and write succeeding, enable set writes back the
current CTRL byte with bit 0 forced to the truth value of the parsed input,
leaving bits 1 through 7 and every other register unchanged. -/
theorem C3_enable_set (bus : Bus) (v : Int) (junk : Nat)
    (hr : bus.readFault I2CSENS_REG_CTRL = false)
    (hw : bus.writeFault I2CSENS_REG_CTRL = false) :
    (enable_store bus v junk).1 = Except.ok () ∧
    (enable_store bus v junk).2.regs I2CSENS_REG_CTRL / 2 =
      bus.regs I2CSENS_REG_CTRL % 256 / 2 ∧
    (enable_store bus v junk).2.regs I2CSENS_REG_CTRL % 2 =
      (if v = 0 then 0 else 1) ∧
    (∀ a, a ≠ I2CSENS_REG_CTRL → (enable_store bus v junk).2.regs a = bus.regs a) ∧
    (enable_store bus v junk).2.readFault = bus.readFault ∧
    (enable_store bus v junk).2.writeFault = bus.writeFault := by
  have hc : bus.regs I2CSENS_REG_CTRL % 256 < 256 := Nat.mod_lt _ (by decide)
  obtain ⟨k1, k2, k3, k4⟩ := ctrl_update_bits _ hc
  rw [enable_store_ok bus v junk hr hw]
  refine ⟨rfl, ?_, ?_, ?_, rfl, rfl⟩
  · by_cases hv : v = 0 <;> simp [hv, k1, k3]
  · by_cases hv : v = 0 <;> simp [hv, k2, k4]
  · intro a ha
    simp [ha]

/-- C3 witness: the spec scenario starting from CTRL = 0x00: enable set 1
makes CTRL 0x01 and enable get returns 1, then enable set 0 makes CTRL 0x00
and enable get returns 0. -/
theorem C3_enable_set_witness :
    zeroBus.readFault I2CSENS_REG_CTRL = false ∧
    zeroBus.writeFault I2CSENS_REG_CTRL = false ∧
    (enable_store zeroBus 1 0).1 = Except.ok () ∧
    (enable_store zeroBus 1 0).2.regs I2CSENS_REG_CTRL = 0x01 ∧
    enable_show (enable_store zeroBus 1 0).2 0 = 1 ∧
    (enable_store (enable_store zeroBus 1 0).2 0 0).2.regs I2CSENS_REG_CTRL = 0x00 ∧
    enable_show (enable_store (enable_store zeroBus 1 0).2 0 0).2 0 = 0 := by
  refine ⟨rfl, rfl, (C3_enable_set zeroBus 1 0 rfl rfl).1, ?_, ?_, ?_, ?_⟩ <;> decide

end I2csens

namespace I2csens

set_option maxRecDepth 8192

/-- C4: with every bus read failing, the enable and data getters still
return a formatted value — one derived from the indeterminate local left by
the unchecked failed read — instead of surfacing the error; the claimed
propagation of bus failures does not happen in the code. -/
theorem C4_get_ignores_bus_error :
    faultBus.readFault I2CSENS_REG_CTRL = true ∧
    faultBus.readFault I2CSENS_REG_DATA = true ∧
    enable_show faultBus 1 = 1 ∧
    enable_show faultBus 0 = 0 ∧
    data_show faultBus 7 = 3500 := by decide

/-- C5: with the CTRL read failing but the write succeeding, the enable
setter still reports success and writes a value derived from the
indeterminate local to CTRL, instead of propagating the read's bus error
and leaving the register alone. -/
theorem C5_set_ignores_read_error :
    readFaultBus.readFault I2CSENS_REG_CTRL = true ∧
    (enable_store readFaultBus 1 0xAA).1 = Except.ok () ∧
    (enable_store readFaultBus 1 0xAA).2.regs I2CSENS_REG_CTRL = 0xAB := by
  exact ⟨rfl, rfl, rfl⟩

/-- C6: for every value and every transport state, a write to the ID or
DATA register fails with the not-writable error, leaving the bus untouched
and issuing no transaction, because the writability predicate holds only
for CTRL. -/
theorem C6_id_data_not_writable (bus : Bus) (v : Nat) :
    regmap_write i2csens_regmap_config bus I2CSENS_REG_ID v =
      (Except.error RegErr.NotWritable, bus, []) ∧
    regmap_write i2csens_regmap_config bus I2CSENS_REG_DATA v =
      (Except.error RegErr.NotWritable, bus, []) ∧
    i2csens_regmap_is_writeable I2CSENS_REG_ID = false ∧
    i2csens_regmap_is_writeable I2CSENS_REG_CTRL = true ∧
    i2csens_regmap_is_writeable I2CSENS_REG_DATA = false :=
  ⟨rfl, rfl, rfl, rfl, rfl⟩

/-- C7: for every address at or beyond the 3-register address space, both
read and write fail with the out-of-range error and no bus transaction is
issued. -/
theorem C7_out_of_range (bus : Bus) (a v : Nat) (h : 3 ≤ a) :
    regmap_read i2csens_regmap_config bus a =
      (Except.error RegErr.OutOfRange, []) ∧
    regmap_write i2csens_regmap_config bus a v =
      (Except.error RegErr.OutOfRange, bus, []) := by
  have h2 : i2csens_regmap_config.max_register < a := h
  simp [regmap_read, regmap_write, h2]

/-- C7 witness: address 3, the first address past the register space. -/
theorem C7_out_of_range_witness :
    3 ≤ 3 ∧
    (regmap_read i2csens_regmap_config okBus 3 =
       (Except.error RegErr.OutOfRange, []) ∧
     regmap_write i2csens_regmap_config okBus 3 0 =
       (Except.error RegErr.OutOfRange, okBus, [])) :=
  ⟨by decide, C7_out_of_range okBus 3 0 (by decide)⟩

/-- C8: a device whose ID register reads exactly 0x5A binds successfully;
when registering the sysfs attribute group fails, the failure is only
logged and the probe still returns success. -/
theorem C8_bind_success (bus : Bus) (sysfsOk : Bool)
    (hf : bus.readFault I2CSENS_REG_ID = false)
    (hid : bus.regs I2CSENS_REG_ID % 256 = I2CSENS_ID) :
    (i2csens_probe bus sysfsOk).result = Except.ok () ∧
    (i2csens_probe bus sysfsOk).sysfsRegistered = sysfsOk ∧
    (i2csens_probe bus false).result = Except.ok () ∧
    (i2csens_probe bus false).sysfsRegistered = false := by
  have e := regmap_read_ok bus I2CSENS_REG_ID (by decide) hf
  simp [i2csens_probe, e, hid]

/-- C8 witness: the fault-free device with ID 0x5A binds successfully even
when the attribute group cannot be registered. -/
theorem C8_bind_success_witness :
    okBus.readFault I2CSENS_REG_ID = false ∧
    okBus.regs I2CSENS_REG_ID % 256 = I2CSENS_ID ∧
    ((i2csens_probe okBus false).result = Except.ok () ∧
     (i2csens_probe okBus false).sysfsRegistered = false ∧
     (i2csens_probe okBus false).result = Except.ok () ∧
     (i2csens_probe okBus false).sysfsRegistered = false) :=
  ⟨rfl, by decide, C8_bind_success okBus false rfl (by decide)⟩

/-- C9 counterexample: starting from CTRL = 0x00, a successful write of 2 to
CTRL followed by a read of CTRL returns 2, whose bits 1 through 7 (value
divided by 2, here 1) differ from those of the CTRL value before the write
(0 divided by 2, i.e. 0); so the bit-preservation part of the claim fails
at the Register Map level for an arbitrary written value. -/
theorem C9_roundtrip_counterexample :
    (regmap_write i2csens_regmap_config zeroBus I2CSENS_REG_CTRL 2).1 =
      Except.ok () ∧
    (regmap_read i2csens_regmap_config
       (regmap_write i2csens_regmap_config zeroBus I2CSENS_REG_CTRL 2).2.1
       I2CSENS_REG_CTRL).1 = Except.ok 2 ∧
    ¬ ((2 : Nat) / 2 = zeroBus.regs I2CSENS_REG_CTRL % 256 / 2) :=
  ⟨rfl, rfl, by decide⟩

/-- C9 amended: a successful write of an 8-bit value v to CTRL followed by
a read of CTRL returns v itself — bit 0 equals v's bit 0 and bits 1
through 7 equal v's bits 1 through 7 — and leaves every other register
unchanged; the bits 1 through 7 of the readback therefore equal those of
the prior CTRL value exactly when v carries them over, as the value written
by the enable setter's read-modify-write does, not for arbitrary v. -/
theorem C9_ctrl_write_read (bus : Bus) (v : Nat) (hv : v < 256)
    (hw : bus.writeFault I2CSENS_REG_CTRL = false)
    (hr : bus.readFault I2CSENS_REG_CTRL = false) :
    (regmap_write i2csens_regmap_config bus I2CSENS_REG_CTRL v).1 =
      Except.ok () ∧
    (regmap_read i2csens_regmap_config
       (regmap_write i2csens_regmap_config bus I2CSENS_REG_CTRL v).2.1
       I2CSENS_REG_CTRL).1 = Except.ok v ∧
    (∀ a, a ≠ I2CSENS_REG_CTRL →
      (regmap_write i2csens_regmap_config bus I2CSENS_REG_CTRL v).2.1.regs a =
        bus.regs a) := by
  have ew := regmap_write_ctrl_ok bus v hw
  have er := regmap_read_ok
      { regs := fun a => if a = I2CSENS_REG_CTRL then v % 256 else bus.regs a
        readFault := bus.readFault
        writeFault := bus.writeFault } I2CSENS_REG_CTRL (by decide) hr
  refine ⟨by rw [ew], ?_, ?_⟩
  · rw [ew]
    simp [er]
    omega
  · intro a ha
    rw [ew]
    simp [ha]

/-- C9 witness: prior CTRL 0x80, written value 0x81 (which carries bit 7
over): the readback is 0x81. -/
theorem C9_ctrl_write_read_witness :
    (0x81 : Nat) < 256 ∧
    (regmap_write i2csens_regmap_config ctrlBus80 I2CSENS_REG_CTRL 0x81).1 =
      Except.ok () ∧
    (regmap_read i2csens_regmap_config
       (regmap_write i2csens_regmap_config ctrlBus80 I2CSENS_REG_CTRL 0x81).2.1
       I2CSENS_REG_CTRL).1 = Except.ok 0x81 :=
  ⟨by decide, (C9_ctrl_write_read ctrlBus80 0x81 (by decide) rfl rfl).1,
   (C9_ctrl_write_read ctrlBus80 0x81 (by decide) rfl rfl).2.1⟩

/-- C10: whatever the transport state and the sysfs outcome, probe issues
exactly one register transaction — a read of the ID register — and leaves
the bus state, in particular the CTRL and DATA registers, unchanged. -/
theorem C10_probe_frame (bus : Bus) (sysfsOk : Bool) :
    (i2csens_probe bus sysfsOk).trace = [Txn.read I2CSENS_REG_ID] ∧
    (i2csens_probe bus sysfsOk).busAfter = bus ∧
    (i2csens_probe bus sysfsOk).busAfter.regs I2CSENS_REG_CTRL =
      bus.regs I2CSENS_REG_CTRL ∧
    (i2csens_probe bus sysfsOk).busAfter.regs I2CSENS_REG_DATA =
      bus.regs I2CSENS_REG_DATA := by
  by_cases h : bus.readFault I2CSENS_REG_ID = true
  · have e := regmap_read_fault bus I2CSENS_REG_ID (by decide) h
    simp [i2csens_probe, e]
  · have h' : bus.readFault I2CSENS_REG_ID = false := by simpa using h
    have e := regmap_read_ok bus I2CSENS_REG_ID (by decide) h'
    by_cases hid : bus.regs I2CSENS_REG_ID % 256 = I2CSENS_ID <;>
      simp [i2csens_probe, e, hid]

end I2csens
